import Mathlib

/-!
Shallow embedding of the GuardedAccess type-level engine (src/guardTypes.ts).

The library manipulates TypeScript object types. We model an object type
(a "Shape") as a partial map from property keys to members, where a member
records its value type (abstracted as a type name), its readonly modifier,
and its declared visibility. TypeScript mapped types (Pick / Omit /
Readonly and the Mutable helper) traverse keyof T, which contains only the
public keys of a class type, so non-public members are lost by every
mapped-type transform; the embedding reflects this by filtering on
visibility wherever the source uses a mapped or keyof-based type.

Constructor types are modelled as a pair of facets (instance shape and
static shape) together with the constructor parameter list. The phantom
property keyed by the unique symbol originalConstructorKey is modelled as
an optional origin field on a constructor type: GuardedConstructor leaves
it empty, ExtensibleGuardedConstructor stores the original constructor
there, and OriginalConstructor reads it back, with none standing for the
uninhabited type never that the conditional type resolves to when the
phantom key is absent (the repository documents this outcome in its demo
file).
-/

namespace GuardTypes

/-- Property keys of a TypeScript object type: string names, symbols, and
numeric keys. -/
inductive Key where
  | str (s : String)
  | sym (n : Nat)
  | num (n : Int)
deriving DecidableEq, Repr

/-- Declared visibility of a class member. -/
inductive Visibility where
  | vpublic
  | vprotected
  | vprivate
deriving DecidableEq, Repr

/-- A member of an object type: its value type (abstracted as a name), its
readonly modifier, and its declared visibility. -/
structure Member where
  ty : String
  readonly : Bool
  vis : Visibility
deriving DecidableEq, Repr

/-- An object type as a partial map from keys to members. -/
abbrev Shape := Key → Option Member

/-- A guard template (a TypeScript template literal type such as the
underscore-prefix template) as the predicate on string names it denotes. -/
abbrev Pattern := String → Bool

/-- The DefaultGuard template literal type: names with a leading
underscore. A string matches the template exactly when it is nonempty and
its first character is the underscore. -/
def DefaultGuard : Pattern := fun s =>
  match s.data with
  | [] => false
  | c :: _ => c = '_'

/-- The set of strings denoted by the unconstrained type string, which is
what the TGuard parameter of guardClass collapses to when no explicit
guard argument is given: every string name matches. -/
def StringGuard : Pattern := fun _ => true

/-- Whether a key is a string key. -/
def isStringKey : Key → Bool
  | .str _ => true
  | _ => false

/-- Whether a key belongs to the set of keys denoted by a guard template:
the template denotes a set of strings, so symbol and numeric keys never
match. -/
def matchesGuard (g : Pattern) : Key → Bool
  | .str s => g s
  | _ => false

/-- keyof T for a class type: the public keys, as a decidable predicate. -/
def keyofS (s : Shape) (k : Key) : Bool :=
  match s k with
  | some m => m.vis = Visibility.vpublic
  | none => false

/-- Pick of the members whose key satisfies a predicate. As a mapped type
over keyof, it only ever retains public members. -/
def Pick (s : Shape) (p : Key → Bool) : Shape :=
  fun k => if keyofS s k && p k then s k else none

/-- Omit of the members whose key satisfies a predicate. As a mapped type
over keyof, it only ever retains public members. -/
def Omit (s : Shape) (p : Key → Bool) : Shape :=
  fun k => if keyofS s k && !(p k) then s k else none

/-- The built-in Readonly mapped type: set the readonly modifier on every
member. -/
def ReadonlyT (s : Shape) : Shape :=
  fun k => (s k).map (fun m => { m with readonly := true })

/-- The Mutable helper type: strip the readonly modifier from every
member. -/
def Mutable (s : Shape) : Shape :=
  fun k => (s k).map (fun m => { m with readonly := false })

/-- Intersection of two object types with disjoint key sets, as used to
reassemble a shape from its Omit part and its transformed Pick part. -/
def mergeS (a b : Shape) : Shape :=
  fun k => (a k).orElse (fun _ => b k)

/-- GuardedNameOf: keyof T intersected with the guard template, as a
decidable predicate on keys. -/
def GuardedNameOf (s : Shape) (g : Pattern) (k : Key) : Bool :=
  keyofS s k && matchesGuard g k

/-- GuardedProperties: Pick of the guarded names. -/
def GuardedProperties (s : Shape) (g : Pattern) : Shape :=
  Pick s (GuardedNameOf s g)

/-- UnguardedProperties: Omit of the guarded names. -/
def UnguardedProperties (s : Shape) (g : Pattern) : Shape :=
  Omit s (GuardedNameOf s g)

/-- Guarded: the unguarded properties unchanged, intersected with the
guarded properties made readonly. -/
def Guarded (s : Shape) (g : Pattern) : Shape :=
  mergeS (UnguardedProperties s g) (ReadonlyT (GuardedProperties s g))

/-- Unguarded: the unguarded properties unchanged, intersected with the
guarded properties made mutable. -/
def Unguarded (s : Shape) (g : Pattern) : Shape :=
  mergeS (UnguardedProperties s g) (Mutable (GuardedProperties s g))

/-- A constructor: parameter list, instance facet, static facet. -/
structure Ctor where
  params : List String
  inst : Shape
  statics : Shape

/-- GuardedConstructor: same parameters, instance type guarded, static
members guarded. -/
def GuardedConstructor (c : Ctor) (g : Pattern) : Ctor :=
  { params := c.params, inst := Guarded c.inst g, statics := Guarded c.statics g }

/-- UnguardedConstructor: same parameters, instance type unguarded, static
members unguarded. -/
def UnguardedConstructor (c : Ctor) (g : Pattern) : Ctor :=
  { params := c.params, inst := Unguarded c.inst g, statics := Unguarded c.statics g }

/-- A constructor type together with the optional phantom origin property
keyed by originalConstructorKey. -/
structure CtorTy where
  ctor : Ctor
  origin : Option Ctor

/-- The GuardedConstructor type as a constructor type: it does not carry
the phantom origin property. -/
def GuardedConstructorTy (c : Ctor) (g : Pattern) : CtorTy :=
  { ctor := GuardedConstructor c g, origin := none }

/-- ExtensibleGuardedConstructor: the guarded constructor type intersected
with OriginalConstructorCarryon, which stores the original constructor
under the phantom key. -/
def ExtensibleGuardedConstructor (c : Ctor) (g : Pattern) : CtorTy :=
  { ctor := GuardedConstructor c g, origin := some c }

/-- MaybeExtensibleGuardedConstructor: dispatch on the TExtensible boolean
literal. -/
def MaybeExtensibleGuardedConstructor (c : Ctor) (extensible : Bool) (g : Pattern) : CtorTy :=
  match extensible with
  | true => ExtensibleGuardedConstructor c g
  | false => GuardedConstructorTy c g

/-- OriginalConstructor: the conditional type that infers the value of the
phantom origin property; when the property is absent the conditional
resolves to never, modelled as none. -/
def OriginalConstructor (t : CtorTy) : Option Ctor :=
  t.origin

/-- Runtime body of guardClass: it returns the constructor passed in,
unchanged; only the static type changes. -/
def guardClass {α : Type} (ctor : α) (_extensible : Bool) : α :=
  ctor

/-- Runtime body of unguardClass: it returns the constructor passed in,
unchanged; only the static type changes. -/
def unguardClass {α : Type} (ctor : α) : α :=
  ctor

/-! Helper lemmas about the pointwise behaviour of the derivations. -/

theorem guarded_eval (s : Shape) (g : Pattern) (k : Key) (m : Member)
    (hm : s k = some m) (hv : m.vis = Visibility.vpublic) :
    Guarded s g k =
      some (if matchesGuard g k then { m with readonly := true } else m) := by
  cases h : matchesGuard g k <;>
    simp [Guarded, mergeS, UnguardedProperties, GuardedProperties, Omit, Pick,
      ReadonlyT, GuardedNameOf, keyofS, hm, hv, h]

theorem guarded_nonpublic (s : Shape) (g : Pattern) (k : Key) (m : Member)
    (hm : s k = some m) (hv : m.vis ≠ Visibility.vpublic) :
    Guarded s g k = none := by
  simp [Guarded, mergeS, UnguardedProperties, GuardedProperties, Omit, Pick,
    ReadonlyT, GuardedNameOf, keyofS, hm, hv]

theorem guarded_absent (s : Shape) (g : Pattern) (k : Key)
    (hm : s k = none) :
    Guarded s g k = none := by
  simp [Guarded, mergeS, UnguardedProperties, GuardedProperties, Omit, Pick,
    ReadonlyT, GuardedNameOf, keyofS, hm]

theorem unguarded_eval (s : Shape) (g : Pattern) (k : Key) (m : Member)
    (hm : s k = some m) (hv : m.vis = Visibility.vpublic) :
    Unguarded s g k =
      some (if matchesGuard g k then { m with readonly := false } else m) := by
  cases h : matchesGuard g k <;>
    simp [Unguarded, mergeS, UnguardedProperties, GuardedProperties, Omit, Pick,
      Mutable, GuardedNameOf, keyofS, hm, hv, h]

theorem unguarded_nonpublic (s : Shape) (g : Pattern) (k : Key) (m : Member)
    (hm : s k = some m) (hv : m.vis ≠ Visibility.vpublic) :
    Unguarded s g k = none := by
  simp [Unguarded, mergeS, UnguardedProperties, GuardedProperties, Omit, Pick,
    Mutable, GuardedNameOf, keyofS, hm, hv]

theorem unguarded_absent (s : Shape) (g : Pattern) (k : Key)
    (hm : s k = none) :
    Unguarded s g k = none := by
  simp [Unguarded, mergeS, UnguardedProperties, GuardedProperties, Omit, Pick,
    Mutable, GuardedNameOf, keyofS, hm]

/-- The derived shape has the same public key set as the source: guarding
only changes modifiers on public members and drops non-public ones, which
keyof never saw. -/
theorem keyof_guarded (s : Shape) (g : Pattern) (k : Key) :
    keyofS (Guarded s g) k = keyofS s k := by
  cases hm : s k with
  | none =>
      rw [keyofS, guarded_absent s g k hm, keyofS, hm]
  | some m =>
      by_cases hv : m.vis = Visibility.vpublic
      · rw [keyofS, guarded_eval s g k m hm hv, keyofS, hm]
        cases h : matchesGuard g k <;> simp [h, hv]
      · rw [keyofS, guarded_nonpublic s g k m hm hv, keyofS, hm]
        simp [hv]

/-! Concrete shapes and constructors used to instantiate the theorems,
following the demonstration classes of the repository. -/

/-- Instance shape of the Demo class: a mutable public member, a mutable
public underscore-prefixed member, and a protected underscore-prefixed
member. -/
def demoInst : Shape := fun k =>
  match k with
  | .str "unguarded" => some { ty := "string", readonly := false, vis := .vpublic }
  | .str "_guarded" => some { ty := "string", readonly := false, vis := .vpublic }
  | .str "_unaffected" => some { ty := "string", readonly := false, vis := .vprotected }
  | _ => none

/-- A shape holding a single public member that is declared readonly at the
source and whose name matches the default guard. -/
def roShape : Shape := fun k =>
  if k = Key.str "_x" then
    some { ty := "number", readonly := true, vis := .vpublic }
  else none

/-- A constructor whose static facet carries a readonly public member. -/
def roCtor : Ctor :=
  { params := [],
    inst := fun _ => none,
    statics := fun k =>
      if k = Key.str "version" then
        some { ty := "string", readonly := true, vis := .vpublic }
      else none }

/-- A shape holding a single public symbol-keyed member. -/
def symShape : Shape := fun k =>
  match k with
  | .sym 0 => some { ty := "string", readonly := false, vis := .vpublic }
  | _ => none

/-! Claim theorems. -/

/-- Claim C1: for every shape and guard pattern, the Guarded view leaves
every open (public, pattern-non-matching) member unchanged, with the same
mutability it has in the source, and makes every restricted (public,
pattern-matching) member readonly. -/
theorem Guarded_open_unchanged_restricted_readonly (s : Shape) (g : Pattern)
    (k : Key) (m : Member) (hm : s k = some m) (hv : m.vis = Visibility.vpublic) :
    (matchesGuard g k = false → Guarded s g k = some m) ∧
    (matchesGuard g k = true → Guarded s g k = some { m with readonly := true }) := by
  constructor <;> intro h <;> rw [guarded_eval s g k m hm hv] <;> simp [h]

/-- Witness for C1 at the Demo instance shape: the open member keeps its
mutability and the restricted member becomes readonly. -/
theorem Guarded_open_unchanged_restricted_readonly_witness :
    Guarded demoInst DefaultGuard (Key.str "unguarded") =
      some { ty := "string", readonly := false, vis := Visibility.vpublic } ∧
    Guarded demoInst DefaultGuard (Key.str "_guarded") =
      some { ty := "string", readonly := true, vis := Visibility.vpublic } :=
  ⟨(Guarded_open_unchanged_restricted_readonly demoInst DefaultGuard
      (Key.str "unguarded") _ rfl rfl).1 (by decide),
   (Guarded_open_unchanged_restricted_readonly demoInst DefaultGuard
      (Key.str "_guarded") _ rfl rfl).2 (by decide)⟩

/-- Claim C3: wrapping with the extensible flag set to false yields a
constructor type without the phantom origin property, so OriginalConstructor
resolves to the uninhabited type, modelled as none, for every pattern. -/
theorem recover_untracked_wrap_uninhabited (c : Ctor) (g : Pattern) :
    OriginalConstructor (MaybeExtensibleGuardedConstructor c false g) = none :=
  rfl

/-- Claim C6: at runtime guardClass and unguardClass both return exactly the
value passed in; only the static type changes. -/
theorem guardClass_runtime_identity {α : Type} (c : α) (b : Bool) :
    guardClass c b = c ∧ unguardClass c = c :=
  ⟨rfl, rfl⟩

/-- Claim C8: classification is idempotent: the guarded-name set of the
already-derived Guarded shape under the same pattern equals the
guarded-name set of the source shape. -/
theorem classification_idempotent (s : Shape) (g : Pattern) (k : Key) :
    GuardedNameOf (Guarded s g) g k = GuardedNameOf s g k := by
  rw [GuardedNameOf, GuardedNameOf, keyof_guarded]

/-- Counterexample for claim C2: the claim asserts that recovery of a wrap
with origin tracking yields facets that are fully mutable on all members.
Recovery returns exactly the original constructor, so a member that was
declared readonly in the original stays readonly after recovery: for the
concrete constructor roCtor, recovery succeeds only with roCtor itself,
whose static member named version has readonly set, refuting full
mutability. -/
theorem recover_tracked_wrap_not_fully_mutable_cex :
    ¬ (∀ r, OriginalConstructor
          (MaybeExtensibleGuardedConstructor roCtor true DefaultGuard) = some r →
        ∀ k m, r.statics k = some m → m.readonly = false) := by
  intro h
  have h2 := h roCtor rfl (Key.str "version")
    { ty := "string", readonly := true, vis := Visibility.vpublic } (by decide)
  simp at h2

/-- Claim C2 (amended): recovery of a wrap with origin tracking yields
exactly the original constructor, so both facets are member-set-equal to
the original with mutability equal, member for member, to the original
(rather than fully mutable). -/
theorem recover_tracked_wrap_yields_original (c : Ctor) (g : Pattern) :
    ∃ r, OriginalConstructor (MaybeExtensibleGuardedConstructor c true g) = some r ∧
      (∀ k, r.inst k = c.inst k) ∧ (∀ k, r.statics k = c.statics k) :=
  ⟨c, rfl, fun _ => rfl, fun _ => rfl⟩

/-- Counterexample for claim C4: the claim asserts that relax after
restrict preserves the mutability every member has in the source. For the
shape roShape, whose member named underscore-x is declared readonly at the
source and matches the default pattern, the round trip yields that member
mutable, so the round trip is not mutability-preserving. -/
theorem relax_restrict_not_identity_cex :
    roShape (Key.str "_x") =
      some { ty := "number", readonly := true, vis := Visibility.vpublic } ∧
    Unguarded (Guarded roShape DefaultGuard) DefaultGuard (Key.str "_x") =
      some { ty := "number", readonly := false, vis := Visibility.vpublic } ∧
    Unguarded (Guarded roShape DefaultGuard) DefaultGuard (Key.str "_x") ≠
      roShape (Key.str "_x") := by
  refine ⟨by decide, by decide, by decide⟩

/-- Claim C4 (amended): for every public member of the source shape, relax
after restrict with the same pattern preserves the value type, preserves
the mutability of every member not matching the pattern, and yields every
pattern-matching member mutable, regardless of its mutability in the
source. -/
theorem relax_restrict_member_eval (s : Shape) (g : Pattern) (k : Key) (m : Member)
    (hm : s k = some m) (hv : m.vis = Visibility.vpublic) :
    Unguarded (Guarded s g) g k =
      some (if matchesGuard g k then { m with readonly := false } else m) := by
  cases h : matchesGuard g k with
  | false =>
      have h1 := guarded_eval s g k m hm hv
      rw [h] at h1
      simp only [Bool.false_eq_true, if_false] at h1
      have h2 := unguarded_eval (Guarded s g) g k m h1 hv
      rw [h] at h2
      simpa using h2
  | true =>
      have h1 := guarded_eval s g k m hm hv
      rw [h] at h1
      simp only [if_true] at h1
      have h2 := unguarded_eval (Guarded s g) g k { m with readonly := true } h1 hv
      rw [h] at h2
      simpa using h2

/-- Witness for the amended claim C4 at the concrete readonly shape. -/
theorem relax_restrict_member_eval_witness :
    Unguarded (Guarded roShape DefaultGuard) DefaultGuard (Key.str "_x") =
      some { ty := "number", readonly := false, vis := Visibility.vpublic } := by
  have h := relax_restrict_member_eval roShape DefaultGuard (Key.str "_x")
    { ty := "number", readonly := true, vis := Visibility.vpublic } (by decide) rfl
  simpa using h

/-- Claim C5, evaluation at the failing input: the source gives the TGuard
parameter no default argument, so a call of guardClass without an explicit
guard collapses TGuard to its constraint, the unconstrained string type,
under which every string-named member is classified restricted; under the
documented default underscore template the member named unguarded would
stay open and mutable. The two derivations disagree on that member. -/
theorem default_pattern_not_wired_eval :
    Guarded demoInst StringGuard (Key.str "unguarded") =
      some { ty := "string", readonly := true, vis := Visibility.vpublic } ∧
    Guarded demoInst DefaultGuard (Key.str "unguarded") =
      some { ty := "string", readonly := false, vis := Visibility.vpublic } := by
  refine ⟨by decide, by decide⟩

/-- Claim C7: the classification and the derived view of each facet depend
only on that facet and the pattern: two constructors with the same instance
facet get the same instance classification and the same derived instance
view, whatever their static facets, and symmetrically for static facets. -/
theorem facet_derivation_independent (c1 c2 : Ctor) (g : Pattern) :
    (c1.inst = c2.inst →
      (∀ k, GuardedNameOf c1.inst g k = GuardedNameOf c2.inst g k) ∧
      (GuardedConstructor c1 g).inst = (GuardedConstructor c2 g).inst) ∧
    (c1.statics = c2.statics →
      (∀ k, GuardedNameOf c1.statics g k = GuardedNameOf c2.statics g k) ∧
      (GuardedConstructor c1 g).statics = (GuardedConstructor c2 g).statics) := by
  constructor
  · intro h
    exact ⟨fun k => by rw [h], by simp [GuardedConstructor, h]⟩
  · intro h
    exact ⟨fun k => by rw [h], by simp [GuardedConstructor, h]⟩

/-- Constructors used to witness claim C7: ctorA and ctorB share the
instance facet and differ in the static facet; ctorB and ctorD share the
static facet and differ in the instance facet. -/
def ctorA : Ctor := { params := [], inst := demoInst, statics := fun _ => none }

def ctorB : Ctor := { params := [], inst := demoInst, statics := roCtor.statics }

def ctorD : Ctor := { params := [], inst := fun _ => none, statics := roCtor.statics }

/-- Witness for claim C7 at concrete constructor pairs. -/
theorem facet_derivation_independent_witness :
    (GuardedConstructor ctorA DefaultGuard).inst =
      (GuardedConstructor ctorB DefaultGuard).inst ∧
    (GuardedConstructor ctorB DefaultGuard).statics =
      (GuardedConstructor ctorD DefaultGuard).statics :=
  ⟨((facet_derivation_independent ctorA ctorB DefaultGuard).1 rfl).2,
   ((facet_derivation_independent ctorB ctorD DefaultGuard).2 rfl).2⟩

/-- Claim C9: a member that is not public is absent from the restricted
view, from the relaxed view, from the relax-after-restrict view, and from
the externally checkable surface of the original shape, which is exactly
what origin recovery returns. -/
theorem nonpublic_members_invisible (s : Shape) (g : Pattern) (k : Key) (m : Member)
    (hm : s k = some m) (hv : m.vis ≠ Visibility.vpublic) :
    Guarded s g k = none ∧ Unguarded s g k = none ∧
    Unguarded (Guarded s g) g k = none ∧ keyofS s k = false ∧
    (∀ c : Ctor, c.inst = s →
      ∀ r, OriginalConstructor (MaybeExtensibleGuardedConstructor c true g) = some r →
        keyofS r.inst k = false) := by
  refine ⟨guarded_nonpublic s g k m hm hv, unguarded_nonpublic s g k m hm hv,
    unguarded_absent _ g k (guarded_nonpublic s g k m hm hv), ?_, ?_⟩
  · simp [keyofS, hm, hv]
  · intro c hc r hr
    have hcr : c = r := by
      have h0 : OriginalConstructor
          (MaybeExtensibleGuardedConstructor c true g) = some c := rfl
      rw [h0] at hr
      exact Option.some.inj hr
    rw [← hcr, hc]
    simp [keyofS, hm, hv]

/-- Witness for claim C9 at the protected member of the Demo instance
shape. -/
theorem nonpublic_members_invisible_witness :
    Guarded demoInst DefaultGuard (Key.str "_unaffected") = none ∧
    Unguarded demoInst DefaultGuard (Key.str "_unaffected") = none ∧
    keyofS demoInst (Key.str "_unaffected") = false := by
  have h := nonpublic_members_invisible demoInst DefaultGuard (Key.str "_unaffected")
    { ty := "string", readonly := false, vis := Visibility.vprotected }
    (by decide) (by decide)
  exact ⟨h.1, h.2.1, h.2.2.2.1⟩

/-- Claim C10: only string-named members can be classified restricted: a
public member keyed by a symbol or a number is never in the guarded name
set, and passes through the restricted view with its type and mutability
unchanged, for every pattern. -/
theorem nonstring_keys_open (s : Shape) (g : Pattern) (k : Key) (m : Member)
    (hk : isStringKey k = false) (hm : s k = some m)
    (hv : m.vis = Visibility.vpublic) :
    GuardedNameOf s g k = false ∧ Guarded s g k = some m := by
  have hg : matchesGuard g k = false := by
    cases k <;> simp_all [isStringKey, matchesGuard]
  constructor
  · simp [GuardedNameOf, hg]
  · rw [guarded_eval s g k m hm hv, hg]
    simp

/-- Witness for claim C10 at a concrete symbol-keyed shape. -/
theorem nonstring_keys_open_witness :
    GuardedNameOf symShape DefaultGuard (Key.sym 0) = false ∧
    Guarded symShape DefaultGuard (Key.sym 0) =
      some { ty := "string", readonly := false, vis := Visibility.vpublic } :=
  nonstring_keys_open symShape DefaultGuard (Key.sym 0) _ rfl rfl rfl

end GuardTypes
